import Mathlib

/-!
Verification of the session/profile store of majlis-e-amali-rooznamcha.

The embedding below translates the two relevant modules:
  - src/src/hooks/useAuth.tsx : the useAuth hook (session store), its
    onAuthStateChange callback, fetchProfile, signIn, signUp, signOut;
  - src/src/components/NotificationHandler.tsx : the unread-count
    derivation of useNotificationHandler.
State updates of React setState are modelled as record updates on an
explicit store state; the setTimeout-deferred profile fetch is modelled as
a queue of pending fetch requests consumed by separate transitions.
-/

namespace Rooznamcha

/-- A backend user as carried inside a session: an opaque id plus an
optional email (supabase User exposes email as possibly undefined). -/
structure SUser where
  id : String
  email : Option String
  deriving DecidableEq, Repr

/-- An authentication session issued by the backend; it always carries its
user (the source reads session.user whenever a session is present). -/
structure Session where
  user : SUser
  deriving DecidableEq, Repr

/-- The locally cached profile record (useAuth.tsx lines 6-15). The role
field is kept as a raw string: the source casts the fetched value into the
admin/member union type without validation (a pass-through cast erased at
run time), so any string can appear here. -/
structure Profile where
  id : String
  name : String
  email : String
  role : String
  secret_number : String
  is_active : Bool
  created_at : String
  updated_at : String
  deriving DecidableEq, Repr

/-- A raw row returned by the profiles query; secret_number is optional,
mirroring a possibly null or undefined column value. -/
structure Row where
  id : String
  name : String
  email : String
  role : String
  secret_number : Option String
  is_active : Bool
  created_at : String
  updated_at : String
  deriving DecidableEq, Repr

/-- The JavaScript falsy-default `profileData.secret_number || ''` from
useAuth.tsx line 103: for a string column the falsy values are
null/undefined and the empty string, all of which yield the empty string. -/
def orEmpty : Option String → String
  | none => ""
  | some s => if s = "" then "" else s

/-- The Profile value stored by fetchProfile from the first returned row
(useAuth.tsx lines 97-107): every field is copied from the row; role is
cast pass-through; secret_number is defaulted to the empty string when
falsy. -/
def mkProfile (r : Row) : Profile :=
  { id := r.id, name := r.name, email := r.email, role := r.role
  , secret_number := orEmpty r.secret_number
  , is_active := r.is_active, created_at := r.created_at
  , updated_at := r.updated_at }

/-- Outcome of the awaited profiles query inside fetchProfile: the backend
reports an error, the await itself raises an exception (caught by the
surrounding try/catch), or a list of rows is returned. A null data field
with no error takes the same branch as the empty row list, so it is
modelled by rows []. -/
inductive QueryReply where
  | fail
  | raised
  | rows (rs : List Row)
  deriving DecidableEq, Repr

/-- A state write performed by fetchProfile (a setProfile or setLoading
call). -/
inductive Write where
  | setProfile (p : Option Profile)
  | setLoading (b : Bool)
  deriving DecidableEq, Repr

/-- Whether a write is a setLoading call. -/
def isLoadWrite : Write → Bool
  | .setLoading _ => true
  | .setProfile _ => false

/-- The sequence of state writes fetchProfile performs for a given query
reply (useAuth.tsx lines 92-118): the error branch, the catch branch and
the empty branch each clear the profile; the success branch stores the
first row; the finally clause appends the single setLoading false as the
last write in every case. -/
def fetchWrites : QueryReply → List Write
  | .fail => [.setProfile none, .setLoading false]
  | .raised => [.setProfile none, .setLoading false]
  | .rows [] => [.setProfile none, .setLoading false]
  | .rows (row :: _) => [.setProfile (some (mkProfile row)), .setLoading false]

/-- Arguments of a deferred profile fetch, as captured by the setTimeout
closure: the user id and optional email of the session that scheduled it. -/
structure FetchReq where
  userId : String
  userEmail : Option String
  deriving DecidableEq, Repr

/-- The hook state (user, session, profile, loading of useAuth.tsx lines
18-21) together with the queue of deferred profile fetches scheduled
through setTimeout and not yet run. -/
structure StoreState where
  user : Option SUser
  session : Option Session
  profile : Option Profile
  loading : Bool
  pending : List FetchReq
  deriving DecidableEq, Repr

/-- Apply one state write. -/
def applyWrite (st : StoreState) : Write → StoreState
  | .setProfile p => { st with profile := p }
  | .setLoading b => { st with loading := b }

/-- fetchProfile as a state transformer: given its two arguments and the
query reply, fold its writes over the store state. The userId argument
reaches only the query filter and the log lines; the userEmail argument
reaches only the log lines; neither is written into the state. -/
def fetchProfile (userId : String) (userEmail : Option String)
    (r : QueryReply) (st : StoreState) : StoreState :=
  (fetchWrites r).foldl applyWrite st

/-- The onAuthStateChange callback (useAuth.tsx lines 64-80): store the new
session and its user; with a session present, enqueue a deferred profile
fetch (the setTimeout runs strictly after the callback returns) and touch
nothing else; with no session, clear the user, session and profile and
stop loading (pending fetches are not cancelled). -/
def onAuthChange (st : StoreState) (s : Option Session) : StoreState :=
  match s with
  | some sess =>
      { st with
          session := some sess
          user := some sess.user
          pending := st.pending ++ [⟨sess.user.id, sess.user.email⟩] }
  | none =>
      { st with
          session := none
          user := none
          profile := none
          loading := false }

/-- An externally visible transition of the store: an auth-change event
carrying a session or its absence, or the completion of the oldest deferred
profile fetch with a given query reply (ignored when nothing is pending). -/
inductive Ev where
  | auth (s : Option Session)
  | fetchDone (r : QueryReply)
  deriving DecidableEq, Repr

/-- One transition of the store. -/
def step (st : StoreState) : Ev → StoreState
  | .auth s => onAuthChange st s
  | .fetchDone r =>
      match st.pending with
      | [] => st
      | req :: rest =>
          { fetchProfile req.userId req.userEmail r st with pending := rest }

/-- Run a list of events from a state. -/
def run (st : StoreState) : List Ev → StoreState
  | [] => st
  | e :: evs => run (step st e) evs

/-- The initial hook state (useAuth.tsx lines 18-21): everything absent,
loading true, nothing scheduled. -/
def initState : StoreState :=
  { user := none, session := none, profile := none, loading := true
  , pending := [] }

/-- The spec invariant: Profile is absent whenever Identity is absent. -/
def identProfileInv (st : StoreState) : Prop :=
  st.user = none → st.profile = none

instance (st : StoreState) : Decidable (identProfileInv st) :=
  decidable_of_iff (st.user = none → st.profile = none) Iff.rfl

/-- Holds when the invariant is satisfied after every transition along the
event list. -/
def invAlong : StoreState → List Ev → Prop
  | _, [] => True
  | st, e :: evs => identProfileInv (step st e) ∧ invAlong (step st e) evs

instance invAlongDec : (st : StoreState) → (evs : List Ev) →
    Decidable (invAlong st evs)
  | _, [] => isTrue trivial
  | st, e :: evs =>
      have : Decidable (invAlong (step st e) evs) := invAlongDec (step st e) evs
      decidable_of_iff (identProfileInv (step st e) ∧ invAlong (step st e) evs)
        Iff.rfl

/-- A fetch completion is benign when the store still holds an identity or
has nothing pending; auth events are always benign. A fetch completing
after sign-out cleared the identity is the non-benign case. -/
def benign (st : StoreState) : Ev → Prop
  | .fetchDone _ => st.user ≠ none ∨ st.pending = []
  | .auth _ => True

instance (st : StoreState) : (e : Ev) → Decidable (benign st e)
  | .fetchDone _ =>
      decidable_of_iff (st.user ≠ none ∨ st.pending = []) Iff.rfl
  | .auth _ => isTrue trivial

/-- Holds when every event along the list is benign in the state at which
it is applied. -/
def benignAlong : StoreState → List Ev → Prop
  | _, [] => True
  | st, e :: evs => benign st e ∧ benignAlong (step st e) evs

instance benignAlongDec : (st : StoreState) → (evs : List Ev) →
    Decidable (benignAlong st evs)
  | _, [] => isTrue trivial
  | st, e :: evs =>
      have : Decidable (benignAlong (step st e) evs) :=
        benignAlongDec (step st e) evs
      decidable_of_iff (benign st e ∧ benignAlong (step st e) evs) Iff.rfl

/-- Outcome of one awaited backend auth call: it resolves with an error
field (possibly null), or it rejects with an exception. -/
inductive CallRes where
  | ret (err : Option String)
  | raise (e : String)
  deriving DecidableEq, Repr

/-- Whether a backend call raises. -/
def raises : CallRes → Bool
  | .raise _ => true
  | .ret _ => false

/-- One backend behaviour: the outcome of each auth call an operation may
make. -/
structure Backend where
  signOutRes : CallRes
  signInRes : CallRes
  signUpRes : CallRes
  deriving DecidableEq, Repr

/-- Whether an operation returned normally (as opposed to throwing). -/
def returnsNormally : Except String (Option String) → Bool
  | .ok _ => true
  | .error _ => false

/-- signIn (useAuth.tsx lines 121-135): inside try/catch, first await
auth.signOut (its result discarded), then await signInWithPassword and
return its error field; an exception from either call is caught and
returned as the error value, so signIn itself never throws. -/
def signIn (b : Backend) (email password : String) :
    Except String (Option String) :=
  match b.signOutRes with
  | .raise e => .ok (some e)
  | .ret _ =>
      match b.signInRes with
      | .raise e => .ok (some e)
      | .ret err => .ok err

/-- signUp (useAuth.tsx lines 137-147): no try/catch; awaits auth.signUp
and returns its error field; an exception from the call propagates to the
caller. -/
def signUp (b : Backend) (email password name : String) :
    Except String (Option String) :=
  match b.signUpRes with
  | .raise e => .error e
  | .ret err => .ok err

/-- signOut (useAuth.tsx lines 149-152): no try/catch; awaits auth.signOut
and returns its error field; an exception from the call propagates to the
caller. -/
def signOut (b : Backend) : Except String (Option String) :=
  match b.signOutRes with
  | .raise e => .error e
  | .ret err => .ok err

/-- A request issued to the backend client. -/
inductive BCall where
  | signOutReq
  | signInReq (email password : String)
  | profileQuery (userId : String)
  deriving DecidableEq, Repr

/-- The backend calls signIn issues, in order (useAuth.tsx lines 121-135):
always the clearing sign-out first; the credential sign-in follows unless
the sign-out call raised, in which case the catch returns before the
sign-in request is reached. -/
def signInCalls (b : Backend) (email password : String) : List BCall :=
  match b.signOutRes with
  | .raise _ => [.signOutReq]
  | .ret _ => [.signOutReq, .signInReq email password]

/-- The backend interactions a store transition performs itself: an
auth-change callback step performs none (the fetch is only enqueued, per
the setTimeout at useAuth.tsx lines 72-74); a fetch-completion step
performs the single profiles query for the dequeued request (line 88). -/
def stepCalls (st : StoreState) : Ev → List BCall
  | .auth _ => []
  | .fetchDone _ =>
      match st.pending with
      | [] => []
      | req :: _ => [.profileQuery req.userId]

/-- A notification entry as consumed by the handler; the record shape is
declared in NotificationPanel (not part of the snapshot), but only the
read flag is used by the unread-count derivation, per the spec's words
(entries with a read/unread flag). -/
structure Notification where
  id : String
  title : String
  message : String
  read : Bool
  deriving DecidableEq, Repr

/-- unreadNotifications (NotificationHandler.tsx lines 23 and 58): the
length of the filter of entries whose read flag is false. -/
def unreadNotifications (ns : List Notification) : Nat :=
  (ns.filter (fun n => !n.read)).length

/-- Demo user for concrete runs. -/
def demoUser : SUser :=
  { id := "u1", email := some "a@example.com" }

/-- Demo session carrying the demo user. -/
def demoSession : Session :=
  { user := demoUser }

/-- Demo profile row whose id matches the demo user. -/
def demoRow : Row :=
  { id := "u1", name := "N", email := "a@example.com", role := "admin"
  , secret_number := some "123456", is_active := true
  , created_at := "t0", updated_at := "t0" }

/-- A second demo row with a different id. -/
def demoRow2 : Row :=
  { demoRow with id := "u2" }

/-- Event trace in which the deferred fetch completes only after sign-out
has cleared the identity. -/
def staleTrace : List Ev :=
  [Ev.auth (some demoSession), Ev.auth none,
   Ev.fetchDone (QueryReply.rows [demoRow])]

/-- Event trace in which the fetch completes while the identity is still
present, then a sign-out arrives. -/
def benignTrace : List Ev :=
  [Ev.auth (some demoSession), Ev.fetchDone (QueryReply.rows [demoRow]),
   Ev.auth none]

/-- State after a sign-in event whose deferred fetch completed with the
demo row. -/
def afterLogin : StoreState :=
  run initState
    [Ev.auth (some demoSession), Ev.fetchDone (QueryReply.rows [demoRow])]

/-- The fetch writes never touch the user field. -/
theorem fetch_user_eq (u : String) (em : Option String) (r : QueryReply)
    (st : StoreState) : (fetchProfile u em r st).user = st.user := by
  cases r with
  | fail => rfl
  | raised => rfl
  | rows rs => cases rs <;> rfl

/-- One benign transition preserves the identity-profile invariant. -/
theorem step_preserves_inv (st : StoreState) (e : Ev)
    (h : identProfileInv st) (hb : benign st e) :
    identProfileInv (step st e) := by
  cases e with
  | auth s =>
      cases s with
      | none => intro _; rfl
      | some sess =>
          intro hu
          simp [step, onAuthChange] at hu
  | fetchDone r =>
      cases hp : st.pending with
      | nil =>
          intro hu
          have hst : step st (Ev.fetchDone r) = st := by
            simp [step, hp]
          rw [hst] at hu ⊢
          exact h hu
      | cons req rest =>
          intro hu
          have hst : step st (Ev.fetchDone r) =
              { fetchProfile req.userId req.userEmail r st with
                  pending := rest } := by
            simp [step, hp]
          rw [hst] at hu
          have hu2 : st.user = none := by
            simpa [fetch_user_eq] using hu
          rcases hb with hb | hb
          · exact absurd hu2 hb
          · rw [hp] at hb
            exact absurd hb (by simp)

/-- C1 counterexample: the code does not re-check Identity when a deferred
profile fetch completes, so on the trace sign-in, sign-out, stale fetch
completion with one row, the final state has Identity absent yet Profile
present — the invariant the claim asserts is violated. -/
theorem c1_counterexample :
    (run initState staleTrace).user = none
    ∧ (run initState staleTrace).profile = some (mkProfile demoRow) :=
  ⟨rfl, rfl⟩

/-- C1 amended: along any event trace in which every fetch completion is
applied while Identity is still present (or nothing is pending), the
invariant Profile-absent-when-Identity-absent holds after every
transition; only a fetch that completes after sign-out cleared Identity
can break it. -/
theorem c1_inv_along_benign (st : StoreState) (evs : List Ev)
    (h0 : identProfileInv st) (hb : benignAlong st evs) :
    invAlong st evs := by
  induction evs generalizing st with
  | nil => trivial
  | cons e evs ih =>
      have hb2 : benign st e ∧ benignAlong (step st e) evs := hb
      have h1 := step_preserves_inv st e h0 hb2.1
      exact ⟨h1, ih (step st e) h1 hb2.2⟩

/-- C1 witness: the benign trace sign-in, fetch completion while signed
in, sign-out satisfies the hypotheses, and the invariant holds along it. -/
theorem c1_inv_along_benign_witness :
    identProfileInv initState
    ∧ benignAlong initState benignTrace
    ∧ invAlong initState benignTrace :=
  ⟨by decide, by decide,
    c1_inv_along_benign initState benignTrace (by decide) (by decide)⟩

/-- C2 counterexample: a lookup returning two rows leaves Profile present
(set from the first row), contradicting the claim that two-or-more rows
must not leave Profile present. -/
theorem c2_counterexample :
    (fetchProfile "u1" (some "a@example.com")
        (QueryReply.rows [demoRow, demoRow2])
        (onAuthChange initState (some demoSession))).profile
      = some (mkProfile demoRow) :=
  rfl

/-- C2 amended: after a fetch completes, Profile is present iff the lookup
succeeded and returned at least one row (it is set from the first row);
on zero rows or failure Profile is absent, while the fetch leaves Identity
untouched in every case. -/
theorem c2_profile_presence (u : String) (em : Option String)
    (r : QueryReply) (st : StoreState) :
    ((fetchProfile u em r st).profile.isSome = true
      ↔ ∃ row rest, r = QueryReply.rows (row :: rest))
    ∧ (fetchProfile u em r st).user = st.user := by
  refine ⟨?_, fetch_user_eq u em r st⟩
  cases r with
  | fail => simp [fetchProfile, fetchWrites, applyWrite]
  | raised => simp [fetchProfile, fetchWrites, applyWrite]
  | rows rs =>
      cases rs with
      | nil => simp [fetchProfile, fetchWrites, applyWrite]
      | cons a l =>
          simp [fetchProfile, fetchWrites, applyWrite]

/-- C3 counterexample: signUp has no try/catch, so when the backend signUp
call raises, the exception propagates to the caller instead of being
returned as an error value. -/
theorem c3_counterexample :
    signUp { signOutRes := CallRes.ret none, signInRes := CallRes.ret none
           , signUpRes := CallRes.raise "boom" } "e@x" "pw" "nm"
      = Except.error "boom" :=
  rfl

/-- C3 amended: signIn never throws for any backend behaviour (its
try/catch returns every failure as an error value); signUp and signOut
return the backend error when the call resolves, but propagate an
exception exactly when their backend call raises. -/
theorem c3_throw_behaviour (b : Backend) (email password name : String) :
    returnsNormally (signIn b email password) = true
    ∧ returnsNormally (signUp b email password name) = !raises b.signUpRes
    ∧ returnsNormally (signOut b) = !raises b.signOutRes := by
  obtain ⟨so, si, su⟩ := b
  refine ⟨?_, ?_, ?_⟩
  · cases so with
    | raise e => rfl
    | ret err => cases si <;> rfl
  · cases su <;> rfl
  · cases so <;> rfl

/-- C4 counterexample: from a state with Profile present and Loading
false, a session-present auth event leaves Profile present and Loading
false — the handler performs no Profile reset and no Loading=true,
contradicting the claim. -/
theorem c4_counterexample :
    (step afterLogin (Ev.auth (some demoSession))).profile
        = some (mkProfile demoRow)
    ∧ (step afterLogin (Ev.auth (some demoSession))).loading = false :=
  ⟨rfl, rfl⟩

/-- C4 amended: on a session-present event the handler synchronously sets
Session and Identity from the event and appends a deferred profile fetch
for that user; Profile and Loading keep their previous values (no reset to
absent, no Loading=true). -/
theorem c4_auth_present (st : StoreState) (sess : Session) :
    step st (Ev.auth (some sess)) =
      { st with
          session := some sess
          user := some sess.user
          pending := st.pending ++ [⟨sess.user.id, sess.user.email⟩] } :=
  rfl

/-- C5: fetchProfile clears Profile on a query error, on a raised
exception and on zero rows; on one-or-more rows it stores the first row
with the role string passed through unvalidated and secret_number
defaulted to empty when falsy; and for every reply its write sequence ends
in exactly one setLoading, whose value is false, so Loading is false after
the fetch in every case. -/
theorem c5_fetch_behaviour (u : String) (em : Option String)
    (r : QueryReply) (st : StoreState) :
    (fetchProfile u em r st).loading = false
    ∧ (fetchWrites r).getLast? = some (Write.setLoading false)
    ∧ (fetchWrites r).countP isLoadWrite = 1
    ∧ (fetchProfile u em QueryReply.fail st).profile = none
    ∧ (fetchProfile u em QueryReply.raised st).profile = none
    ∧ (fetchProfile u em (QueryReply.rows []) st).profile = none
    ∧ (∀ row rest,
        (fetchProfile u em (QueryReply.rows (row :: rest)) st).profile
          = some (mkProfile row))
    ∧ (∀ row, (mkProfile row).role = row.role)
    ∧ (∀ row, (mkProfile row).secret_number = orEmpty row.secret_number)
    ∧ orEmpty none = ""
    ∧ orEmpty (some "") = "" := by
  refine ⟨?_, ?_, ?_, rfl, rfl, rfl, fun row rest => rfl, fun row => rfl,
    fun row => rfl, rfl, rfl⟩
  · cases r with
    | fail => rfl
    | raised => rfl
    | rows rs => cases rs <;> rfl
  · cases r with
    | fail => rfl
    | raised => rfl
    | rows rs => cases rs <;> rfl
  · cases r with
    | fail => rfl
    | raised => rfl
    | rows rs => cases rs <;> rfl

/-- C6: for every email/password input and every backend behaviour, the
trace of backend calls made by signIn is either the sign-out request alone
(when that request raised and the catch returned) or the sign-out request
followed by the credential sign-in request — so a sign-out request always
precedes any sign-in request. -/
theorem c6_signout_first (b : Backend) (email password : String) :
    signInCalls b email password = [BCall.signOutReq]
    ∨ signInCalls b email password
        = [BCall.signOutReq, BCall.signInReq email password] := by
  obtain ⟨so, si, su⟩ := b
  cases so with
  | raise e => exact Or.inl rfl
  | ret err => exact Or.inr rfl

/-- C7: an auth-change callback step performs no backend call of its own —
a session-present event only appends the profile fetch to the deferred
queue — and the profiles query is issued only by a separate
fetch-completion transition that dequeues the request, i.e. strictly after
the callback has returned. -/
theorem c7_callback_defers (st : StoreState) (s : Option Session)
    (sess : Session) (r : QueryReply) (req : FetchReq)
    (rest : List FetchReq) :
    stepCalls st (Ev.auth s) = []
    ∧ (step st (Ev.auth (some sess))).pending
        = st.pending ++ [⟨sess.user.id, sess.user.email⟩]
    ∧ stepCalls { st with pending := req :: rest } (Ev.fetchDone r)
        = [BCall.profileQuery req.userId] :=
  ⟨rfl, rfl, rfl⟩

/-- C8: the unread count exposed by the notification handler equals the
number of entries whose read flag is false. -/
theorem c8_unread_count (ns : List Notification) :
    unreadNotifications ns = ns.countP (fun n => n.read == false) := by
  induction ns with
  | nil => rfl
  | cons n t ih =>
      simp only [unreadNotifications, List.filter_cons, List.countP_cons]
        at ih ⊢
      cases hr : n.read <;> simp [hr, ih]

/-- C9: the store state produced by fetchProfile is independent of its
optional userEmail argument: for the same userId and the same query reply,
any two email values yield identical states (the email stored in Profile
comes only from the returned row). -/
theorem c9_email_independent (u : String) (e1 e2 : Option String)
    (r : QueryReply) (st : StoreState) :
    fetchProfile u e1 r st = fetchProfile u e2 r st :=
  rfl

/-- C10: on a non-empty reply fetchProfile stores a Profile built wholly
from the first row — its id is the row id, not the queried userId — and
concretely a query for the id queried-id that returns the demo row (id u1)
stores that row unchanged, so Profile.id = Identity.id is not enforced by
the store. -/
theorem c10_profile_from_row (u : String) (em : Option String)
    (row : Row) (rest : List Row) (st : StoreState) :
    (fetchProfile u em (QueryReply.rows (row :: rest)) st).profile
        = some (mkProfile row)
    ∧ (mkProfile row).id = row.id
    ∧ (fetchProfile "queried-id" none (QueryReply.rows [demoRow])
        initState).profile = some (mkProfile demoRow)
    ∧ (demoRow.id == "queried-id") = false :=
  ⟨rfl, rfl, rfl, rfl⟩

end Rooznamcha
